import Mathlib

/-!
Shallow embedding of `src/renderer.cpp` (namespace `fpl` of the pienoon
renderer): the vertex-attribute bind/unbind protocol of `Mesh::SetAttributes`
and `Mesh::UnSetAttributes`, the mesh render/lifecycle code, the shader
compile-and-link error paths, and the TGA decoder of
`Renderer::CreateTextureFromTGAMemory`.

GL side effects are modelled explicitly: attribute-array enable bits as a
four-field record, buffer/shader/program handles as natural numbers handed
out by a fresh-name counter, and draw submission as a trace of operations.
-/

namespace Fpl

/-- The `Attribute` enum of `renderer.h` used by `Mesh::SetAttributes`:
vertex field kinds plus the `kEND` sentinel terminating a format. -/
inductive Attribute where
  | kPosition3f
  | kNormal3f
  | kTexCoord2f
  | kColor4ub
  | kEND
deriving DecidableEq, Repr

/-- Fixed attribute slot `kAttributePosition` (anonymous enum, renderer.cpp). -/
def kAttributePosition : Nat := 0
/-- Fixed attribute slot `kAttributeNormal`. -/
def kAttributeNormal : Nat := 1
/-- Fixed attribute slot `kAttributeTexCoord`. -/
def kAttributeTexCoord : Nat := 2
/-- Fixed attribute slot `kAttributeColor`. -/
def kAttributeColor : Nat := 3

/-- The two GL component types used by `glVertexAttribPointer` in
`Mesh::SetAttributes`. -/
inductive GLType where
  | GL_FLOAT
  | GL_UNSIGNED_BYTE
deriving DecidableEq, Repr

/-- The enable bits of the four fixed vertex-attribute arrays: the piece of
GL pipeline state mutated by `glEnableVertexAttribArray` /
`glDisableVertexAttribArray`. -/
structure AttribArrays where
  position : Bool
  normal : Bool
  texcoord : Bool
  color : Bool
deriving DecidableEq, Repr

/-- The GL default: all four attribute arrays disabled. -/
def glDefaultArrays : AttribArrays := ⟨false, false, false, false⟩

/-- Read the enable bit of slot `k` (slots 0..3; any other index has no
array and reads as disabled). -/
def AttribArrays.enabled (s : AttribArrays) : Nat → Bool
  | 0 => s.position
  | 1 => s.normal
  | 2 => s.texcoord
  | 3 => s.color
  | _ + 4 => false

/-- `glEnableVertexAttribArray i` on the modelled state. -/
def glEnableVertexAttribArray (s : AttribArrays) (i : Nat) : AttribArrays :=
  if i = kAttributePosition then { s with position := true }
  else if i = kAttributeNormal then { s with normal := true }
  else if i = kAttributeTexCoord then { s with texcoord := true }
  else if i = kAttributeColor then { s with color := true }
  else s

/-- `glDisableVertexAttribArray i` on the modelled state. -/
def glDisableVertexAttribArray (s : AttribArrays) (i : Nat) : AttribArrays :=
  if i = kAttributePosition then { s with position := false }
  else if i = kAttributeNormal then { s with normal := false }
  else if i = kAttributeTexCoord then { s with texcoord := false }
  else if i = kAttributeColor then { s with color := false }
  else s

/-- One `glVertexAttribPointer` registration issued by `Mesh::SetAttributes`:
slot, component count, component type, normalization flag, stride, and byte
offset from the buffer base. -/
structure VertexAttribPointer where
  slot : Nat
  size : Nat
  typ : GLType
  normalized : Bool
  stride : Nat
  offset : Nat
deriving DecidableEq, Repr

/-- The `for (;;) switch (*attributes++)` loop of `Mesh::SetAttributes`
(renderer.cpp lines 278-307), walking the format from byte offset `offset`
and mutating the attribute-array state.  It returns the final state paired
with the ordered list of pointer registrations it issued.  A walk that runs
off the end of the sequence without meeting `kEND` reads out of bounds in
the C++ code; that violated precondition is modelled as `none`. -/
def SetAttributesGo (stride : Nat) :
    List Attribute → Nat → AttribArrays →
    Option (AttribArrays × List VertexAttribPointer)
  | [], _, _ => none
  | a :: rest, offset, s =>
    match a with
    | .kPosition3f =>
        (SetAttributesGo stride rest (offset + 3 * 4)
            (glEnableVertexAttribArray s kAttributePosition)).map
          (fun r => (r.1,
            ⟨kAttributePosition, 3, .GL_FLOAT, false, stride, offset⟩ :: r.2))
    | .kNormal3f =>
        (SetAttributesGo stride rest (offset + 3 * 4)
            (glEnableVertexAttribArray s kAttributeNormal)).map
          (fun r => (r.1,
            ⟨kAttributeNormal, 3, .GL_FLOAT, false, stride, offset⟩ :: r.2))
    | .kTexCoord2f =>
        (SetAttributesGo stride rest (offset + 2 * 4)
            (glEnableVertexAttribArray s kAttributeTexCoord)).map
          (fun r => (r.1,
            ⟨kAttributeTexCoord, 2, .GL_FLOAT, false, stride, offset⟩ :: r.2))
    | .kColor4ub =>
        (SetAttributesGo stride rest (offset + 4)
            (glEnableVertexAttribArray s kAttributeColor)).map
          (fun r => (r.1,
            ⟨kAttributeColor, 4, .GL_UNSIGNED_BYTE, true, stride, offset⟩ :: r.2))
    | .kEND => some (s, [])

/-- `Mesh::SetAttributes(vbo, attributes, stride, buffer)`: binds the vertex
buffer (the handle itself does not affect the attribute walk) and runs the
walk from offset 0. -/
def SetAttributes (_vbo : Nat) (attributes : List Attribute) (stride : Nat)
    (s : AttribArrays) : Option (AttribArrays × List VertexAttribPointer) :=
  SetAttributesGo stride attributes 0 s

/-- The loop of `Mesh::UnSetAttributes` (renderer.cpp lines 311-328):
disables the slot of each field until `kEND`; `none` again models the walk
running off an unterminated sequence. -/
def UnSetAttributesGo : List Attribute → AttribArrays → Option AttribArrays
  | [], _ => none
  | a :: rest, s =>
    match a with
    | .kPosition3f =>
        UnSetAttributesGo rest (glDisableVertexAttribArray s kAttributePosition)
    | .kNormal3f =>
        UnSetAttributesGo rest (glDisableVertexAttribArray s kAttributeNormal)
    | .kTexCoord2f =>
        UnSetAttributesGo rest (glDisableVertexAttribArray s kAttributeTexCoord)
    | .kColor4ub =>
        UnSetAttributesGo rest (glDisableVertexAttribArray s kAttributeColor)
    | .kEND => some s

/-- `Mesh::UnSetAttributes(attributes)`. -/
def UnSetAttributes (attributes : List Attribute) (s : AttribArrays) :
    Option AttribArrays :=
  UnSetAttributesGo attributes s

/-- `true` for the proper fields, `false` for the `kEND` sentinel. -/
def notEnd : Attribute → Bool
  | .kEND => false
  | _ => true

/-- Whether field `a` binds the fixed slot `k`. -/
def fieldBindsSlot (k : Nat) : Attribute → Bool
  | .kPosition3f => k == kAttributePosition
  | .kNormal3f => k == kAttributeNormal
  | .kTexCoord2f => k == kAttributeTexCoord
  | .kColor4ub => k == kAttributeColor
  | .kEND => false

/-- Whether some field before the first `kEND` of `attrs` binds slot `k`. -/
def slotTouched (k : Nat) (attrs : List Attribute) : Bool :=
  (attrs.takeWhile notEnd).any (fieldBindsSlot k)

/-- Modelled from the spec (section 4.1): fixed per-field descriptor —
slot, component count, component type, normalization flag and byte size
(Position3f/Normal3f 3×4 bytes, TexCoord2f 2×4 bytes, Color4ub 4×1 byte,
the only normalized field); `End` has no descriptor. -/
def specFieldDesc : Attribute → Option (Nat × Nat × GLType × Bool × Nat)
  | .kPosition3f => some (kAttributePosition, 3, .GL_FLOAT, false, 12)
  | .kNormal3f => some (kAttributeNormal, 3, .GL_FLOAT, false, 12)
  | .kTexCoord2f => some (kAttributeTexCoord, 2, .GL_FLOAT, false, 8)
  | .kColor4ub => some (kAttributeColor, 4, .GL_UNSIGNED_BYTE, true, 4)
  | .kEND => none

/-- Modelled from the spec (section 4.1): `Bind` walks the field sequence
in declaration order from the given running offset, registers each field's
slot/count/type/normalization at the current offset, advances the offset by
the field's fixed size, and terminates on `End`. -/
def specBindWalk (stride : Nat) : List Attribute → Nat → List VertexAttribPointer
  | [], _ => []
  | a :: rest, offset =>
    match specFieldDesc a with
    | none => []
    | some (slot, size, typ, norm, bytes) =>
        ⟨slot, size, typ, norm, stride, offset⟩ ::
          specBindWalk stride rest (offset + bytes)

/-! ## Mesh: construction, index ranges, render trace, destruction -/

/-- The `Mesh::Indices` record: one index-buffer handle, an index count and
the (externally owned) material, modelled by an opaque identifier. -/
structure Indices where
  ibo : Nat
  count : Nat
  mat : Nat
deriving DecidableEq, Repr

/-- The `Mesh` state: vertex-buffer handle, vertex stride, attribute format
pointer, and the ordered `indices_` vector. -/
structure Mesh where
  vbo : Nat
  vertex_size : Nat
  format : List Attribute
  indices : List Indices
deriving DecidableEq, Repr

/-- `GL_TRIANGLES`. -/
def GL_TRIANGLES : Nat := 4

/-- One step of the draw-submission trace produced by `Mesh::Render`. -/
inductive RenderOp where
  | setAttributes (vbo : Nat) (format : List Attribute) (stride : Nat)
  | materialSet (mat : Nat)
  | bindElementBuffer (ibo : Nat)
  | drawElements (mode : Nat) (count : Nat)
  | unSetAttributes (format : List Attribute)
deriving DecidableEq, Repr

/-- Whether a trace step is a draw call. -/
def RenderOp.isDraw : RenderOp → Bool
  | .drawElements _ _ => true
  | _ => false

/-- Whether a trace step is a material activation. -/
def RenderOp.isMaterial : RenderOp → Bool
  | .materialSet _ => true
  | _ => false

/-- Whether a trace step is an element-buffer bind. -/
def RenderOp.isBindIbo : RenderOp → Bool
  | .bindElementBuffer _ => true
  | _ => false

/-- Whether a trace step is an attribute bind. -/
def RenderOp.isSetAttr : RenderOp → Bool
  | .setAttributes _ _ _ => true
  | _ => false

/-- Whether a trace step is an attribute unbind. -/
def RenderOp.isUnSetAttr : RenderOp → Bool
  | .unSetAttributes _ => true
  | _ => false

/-- The loop body of `Mesh::Render` for one `Indices` entry:
`it->mat->Set(renderer)`, `glBindBuffer(GL_ELEMENT_ARRAY_BUFFER, it->ibo)`,
`glDrawElements(GL_TRIANGLES, it->count, ...)`. -/
def renderChunk (it : Indices) : List RenderOp :=
  [RenderOp.materialSet it.mat,
   RenderOp.bindElementBuffer it.ibo,
   RenderOp.drawElements GL_TRIANGLES it.count]

/-- `Mesh::Render` (renderer.cpp lines 378-386) as the trace of operations it
issues: one attribute bind, then per `Indices` entry in vector order a
material activation, an element-buffer bind and a triangle-list draw, then
one attribute unbind. -/
def Mesh.Render (m : Mesh) : List RenderOp :=
  RenderOp.setAttributes m.vbo m.format m.vertex_size ::
    (m.indices.flatMap renderChunk ++ [RenderOp.unSetAttributes m.format])

/-- The `Mesh` constructor (renderer.cpp lines 351-358): `glGenBuffers`
hands out the next fresh buffer name for `vbo_`; vertex data is uploaded
(not modelled) and the format pointer stored.  The fresh-name counter models
GL's guarantee that generated buffer names are unused. -/
def mkMesh (vertex_size : Nat) (format : List Attribute) (nextName : Nat) :
    Mesh × Nat :=
  ({ vbo := nextName, vertex_size := vertex_size, format := format,
     indices := [] }, nextName + 1)

/-- `Mesh::AddIndices` (renderer.cpp lines 367-376): pushes a new `Indices`
record whose `ibo` is a fresh buffer name, with the given count and
material. -/
def Mesh.AddIndices (m : Mesh) (count : Nat) (mat : Nat) (nextName : Nat) :
    Mesh × Nat :=
  ({ m with indices := m.indices ++ [⟨nextName, count, mat⟩] }, nextName + 1)

/-- A mesh built by the constructor followed by one `AddIndices` call per
`(count, mat)` pair, threading the fresh-name counter. -/
def buildMesh (vertex_size : Nat) (format : List Attribute)
    (ranges : List (Nat × Nat)) (nextName : Nat) : Mesh × Nat :=
  ranges.foldl (fun p r => p.1.AddIndices r.1 r.2 p.2)
    (mkMesh vertex_size format nextName)

/-- `Mesh::~Mesh` (renderer.cpp lines 360-365) as the list of buffer names it
passes to `glDeleteBuffers`: the vertex buffer, then each `Indices` entry's
index buffer in vector order. -/
def Mesh.dtorDeletes (m : Mesh) : List Nat :=
  m.vbo :: m.indices.map (fun it => it.ibo)

/-! ## Shader compilation and linking -/

/-- The two shader stages used by `Renderer::CompileAndLinkShader`. -/
inductive ShaderStage where
  | GL_VERTEX_SHADER
  | GL_FRAGMENT_SHADER
deriving DecidableEq, Repr

/-- The GL driver behaviour `Renderer::CompileShader` and
`Renderer::CompileAndLinkShader` depend on: whether a (platform-prefixed)
source compiles at each stage and the diagnostic log on failure, and whether
a program built from a given vertex/fragment source pair links and the link
log on failure. -/
structure GLDriver where
  compileOk : ShaderStage → String → Bool
  compileLog : ShaderStage → String → String
  linkOk : String → String → Bool
  linkLog : String → String → String

/-- The GL object state the shader paths mutate: the fresh-name counter,
the sets of live shader and program handles, the program-shader attachment
list, and the renderer's shared `last_error_` string. -/
structure GLState where
  nextHandle : Nat
  liveShaders : List Nat
  livePrograms : List Nat
  attached : List (Nat × Nat)
  lastError : String
deriving Repr

/-- The platform preamble prepended by `Renderer::CompileShader` on the
desktop path: `"#version 120\n"` followed by the caller's source. -/
def platformSource (source : String) : String := "#version 120\n" ++ source

/-- `Renderer::CompileShader` (renderer.cpp lines 143-169): creates a shader
object, compiles the preamble-prefixed source; on success attaches the stage
to `program` and returns its handle; on failure stores the compiler log in
`last_error_`, deletes the shader object, and returns the null handle
(modelled as `none`). -/
def CompileShader (d : GLDriver) (stage : ShaderStage) (program : Nat)
    (source : String) (st : GLState) : Option Nat × GLState :=
  let psrc := platformSource source
  let shader_obj := st.nextHandle
  let st1 : GLState := { st with nextHandle := shader_obj + 1,
                                 liveShaders := shader_obj :: st.liveShaders }
  if d.compileOk stage psrc then
    (some shader_obj, { st1 with attached := (program, shader_obj) :: st1.attached })
  else
    (none, { st1 with lastError := d.compileLog stage psrc,
                      liveShaders := st1.liveShaders.erase shader_obj })

/-- `glDeleteShader` on the modelled state. -/
def glDeleteShader (st : GLState) (h : Nat) : GLState :=
  { st with liveShaders := st.liveShaders.erase h }

/-- `glDeleteProgram` on the modelled state: the program handle dies and its
attachments go with it. -/
def glDeleteProgram (st : GLState) (p : Nat) : GLState :=
  { st with livePrograms := st.livePrograms.erase p,
            attached := st.attached.filter (fun a => a.1 ≠ p) }

/-- The `Shader` object built on successful link: program handle plus the
two stage handles. -/
structure Shader where
  program : Nat
  vs : Nat
  ps : Nat
deriving DecidableEq, Repr

/-- `Renderer::CompileAndLinkShader` (renderer.cpp lines 171-201): creates a
program, compiles the vertex then the fragment stage (short-circuiting on
failure), links, and returns a `Shader` on success; every failure path
stores a diagnostic, deletes the handles created for the attempt, and
returns `none`. -/
def CompileAndLinkShader (d : GLDriver) (vs_source ps_source : String)
    (st : GLState) : Option Shader × GLState :=
  let program := st.nextHandle
  let st0 : GLState := { st with nextHandle := program + 1,
                                 livePrograms := program :: st.livePrograms }
  match CompileShader d .GL_VERTEX_SHADER program vs_source st0 with
  | (some vs, st1) =>
    match CompileShader d .GL_FRAGMENT_SHADER program ps_source st1 with
    | (some ps, st2) =>
      if d.linkOk (platformSource vs_source) (platformSource ps_source) then
        (some ⟨program, vs, ps⟩, st2)
      else
        let st3 : GLState :=
          { st2 with lastError :=
              d.linkLog (platformSource vs_source) (platformSource ps_source) }
        (none, glDeleteProgram (glDeleteShader (glDeleteShader st3 ps) vs) program)
    | (none, st2) => (none, glDeleteProgram (glDeleteShader st2 vs) program)
  | (none, st1) => (none, glDeleteProgram st1 program)

/-- A driver on which every compile and link fails, with fixed non-empty
diagnostics. -/
def failDriver : GLDriver where
  compileOk := fun _ _ => false
  compileLog := fun _ _ => "0:1: error: syntax error"
  linkOk := fun _ _ => false
  linkLog := fun _ _ => "error: link failed"

/-- A driver whose compiles succeed but whose link fails. -/
def linkFailDriver : GLDriver where
  compileOk := fun _ _ => true
  compileLog := fun _ _ => "0:1: error: syntax error"
  linkOk := fun _ _ => false
  linkLog := fun _ _ => "error: link failed"

/-- A fresh GL context: no live objects, empty error string. -/
def emptyGLState : GLState where
  nextHandle := 1
  liveShaders := []
  livePrograms := []
  attached := []
  lastError := ""

/-! ## TGA decoding (`Renderer::CreateTextureFromTGAMemory`) -/

/-- The inner-loop body of the decoder: writes output pixel `(y, x)` of a
`w`-wide image into the flat RGBA byte list `rgba`, from the next `px` input
bytes (stored B, G, R then optionally A): `p[2] = B; p[1] = G; p[0] = R;`
and `p[3]` is the source alpha for 32 bpp, else 255. -/
def writePixel (w bpp : Nat) (rgba : List Nat) (y x : Nat) (px : List Nat) :
    List Nat :=
  let p := (y * w + x) * 4
  let rgba := rgba.set (p + 2) (px.getD 0 0)
  let rgba := rgba.set (p + 1) (px.getD 1 0)
  let rgba := rgba.set p (px.getD 2 0)
  rgba.set (p + 3) (if bpp == 32 then px.getD 3 0 else 255)

/-- The nested scan loops of the decoder: for each output row `y` in `rows`
(top-to-bottom or bottom-to-top as chosen from the flip bit) and each column
`x`, consume one input pixel (`bpp / 8` bytes, sequentially) and write
output pixel `(y, x)`. -/
def decodePixels (rows : List Nat) (w bpp : Nat) (input : List Nat)
    (rgba : List Nat) : List Nat :=
  (rows.foldl (fun (st : List Nat × List Nat) y =>
      (List.range w).foldl (fun (st : List Nat × List Nat) x =>
          (st.1.drop (bpp / 8),
           writePixel w bpp st.2 y x (st.1.take (bpp / 8))))
        st)
    (input, rgba)).2

/-- `Renderer::CreateTextureFromTGAMemory` (renderer.cpp lines 228-272),
up to the final `CreateTexture` upload: parses the 18-byte header from the
byte list `buf`, rejects big-endian hosts (`littleEndian = false`), rejects
color-mapped, non-type-2 and non-24/32-bpp images, skips the image-ID
field, chooses the row scan order from bit 0x20 of `image_descriptor`, and
converts the BGR(A) pixel stream into a `width*height*4`-byte RGBA list in
top-to-bottom row order.  Returns `none` exactly when the C++ function
returns 0 before converting. -/
def CreateTextureFromTGAMemory (littleEndian : Bool) (buf : List Nat) :
    Option (Nat × Nat × List Nat) :=
  if !littleEndian then none
  else
    let id_len := buf.getD 0 0
    let color_map_type := buf.getD 1 0
    let image_type := buf.getD 2 0
    let width := buf.getD 12 0 + 256 * buf.getD 13 0
    let height := buf.getD 14 0 + 256 * buf.getD 15 0
    let bpp := buf.getD 16 0
    let image_descriptor := buf.getD 17 0
    if color_map_type ≠ 0 ∨ image_type ≠ 2 ∨ (bpp ≠ 32 ∧ bpp ≠ 24) then none
    else
      let pixels := buf.drop (18 + id_len)
      let size := width * height
      let rows := if image_descriptor.land 0x20 ≠ 0 then
                    (List.range height).reverse
                  else List.range height
      some (width, height,
            decodePixels rows width bpp pixels (List.replicate (size * 4) 0))

/-! ## Lemmas about the attribute walk -/

lemma glDefault_enabled (k : Nat) : glDefaultArrays.enabled k = false := by
  rcases k with _ | _ | _ | _ | k <;> rfl

lemma enable_enabled (s : AttribArrays) (j k : Nat) (hj : j < 4) :
    (glEnableVertexAttribArray s j).enabled k = (s.enabled k || (k == j)) := by
  interval_cases j <;> rcases k with _ | _ | _ | _ | k <;>
    simp [glEnableVertexAttribArray, AttribArrays.enabled, kAttributePosition,
          kAttributeNormal, kAttributeTexCoord, kAttributeColor]

lemma disable_enabled (s : AttribArrays) (j k : Nat) (hj : j < 4) :
    (glDisableVertexAttribArray s j).enabled k = (s.enabled k && !(k == j)) := by
  interval_cases j <;> rcases k with _ | _ | _ | _ | k <;>
    simp [glDisableVertexAttribArray, AttribArrays.enabled, kAttributePosition,
          kAttributeNormal, kAttributeTexCoord, kAttributeColor]

lemma slotTouched_cons_field (k : Nat) (a : Attribute) (rest : List Attribute)
    (ha : notEnd a = true) :
    slotTouched k (a :: rest) = (fieldBindsSlot k a || slotTouched k rest) := by
  simp [slotTouched, List.takeWhile_cons, ha]

lemma slotTouched_cons_end (k : Nat) (rest : List Attribute) :
    slotTouched k (Attribute.kEND :: rest) = false := by
  simp [slotTouched, List.takeWhile_cons, notEnd]

lemma SetAttributesGo_enabled (stride : Nat) (attrs : List Attribute) :
    ∀ (off : Nat) (s : AttribArrays) (r : AttribArrays × List VertexAttribPointer),
      SetAttributesGo stride attrs off s = some r →
      ∀ k, r.1.enabled k = (s.enabled k || slotTouched k attrs) := by
  induction attrs with
  | nil => intro off s r h; simp [SetAttributesGo] at h
  | cons a rest ih =>
    intro off s r h k
    cases a with
    | kEND =>
      simp only [SetAttributesGo] at h
      obtain rfl : ((s, []) : AttribArrays × List VertexAttribPointer) = r :=
        Option.some.inj h
      simp [slotTouched_cons_end]
    | kPosition3f =>
      simp only [SetAttributesGo, Option.map_eq_some'] at h
      obtain ⟨r', hr', rfl⟩ := h
      rw [slotTouched_cons_field k Attribute.kPosition3f rest rfl]
      have hrec := ih _ _ _ hr' k
      rw [show ((r'.1,
          (⟨kAttributePosition, 3, GLType.GL_FLOAT, false, stride, off⟩ :
            VertexAttribPointer) :: r'.2).1) = r'.1 from rfl, hrec,
        enable_enabled s kAttributePosition k (by decide)]
      simp [fieldBindsSlot, Bool.or_assoc]
    | kNormal3f =>
      simp only [SetAttributesGo, Option.map_eq_some'] at h
      obtain ⟨r', hr', rfl⟩ := h
      rw [slotTouched_cons_field k Attribute.kNormal3f rest rfl]
      have hrec := ih _ _ _ hr' k
      rw [show ((r'.1,
          (⟨kAttributeNormal, 3, GLType.GL_FLOAT, false, stride, off⟩ :
            VertexAttribPointer) :: r'.2).1) = r'.1 from rfl, hrec,
        enable_enabled s kAttributeNormal k (by decide)]
      simp [fieldBindsSlot, Bool.or_assoc]
    | kTexCoord2f =>
      simp only [SetAttributesGo, Option.map_eq_some'] at h
      obtain ⟨r', hr', rfl⟩ := h
      rw [slotTouched_cons_field k Attribute.kTexCoord2f rest rfl]
      have hrec := ih _ _ _ hr' k
      rw [show ((r'.1,
          (⟨kAttributeTexCoord, 2, GLType.GL_FLOAT, false, stride, off⟩ :
            VertexAttribPointer) :: r'.2).1) = r'.1 from rfl, hrec,
        enable_enabled s kAttributeTexCoord k (by decide)]
      simp [fieldBindsSlot, Bool.or_assoc]
    | kColor4ub =>
      simp only [SetAttributesGo, Option.map_eq_some'] at h
      obtain ⟨r', hr', rfl⟩ := h
      rw [slotTouched_cons_field k Attribute.kColor4ub rest rfl]
      have hrec := ih _ _ _ hr' k
      rw [show ((r'.1,
          (⟨kAttributeColor, 4, GLType.GL_UNSIGNED_BYTE, true, stride, off⟩ :
            VertexAttribPointer) :: r'.2).1) = r'.1 from rfl, hrec,
        enable_enabled s kAttributeColor k (by decide)]
      simp [fieldBindsSlot, Bool.or_assoc]

lemma SetAttributesGo_spec (stride : Nat) (attrs : List Attribute) :
    ∀ (off : Nat) (s : AttribArrays), Attribute.kEND ∈ attrs →
      ∃ sArr, SetAttributesGo stride attrs off s =
        some (sArr, specBindWalk stride attrs off) := by
  induction attrs with
  | nil => intro off s h; simp at h
  | cons a rest ih =>
    intro off s h
    cases a with
    | kEND => exact ⟨s, by simp [SetAttributesGo, specBindWalk, specFieldDesc]⟩
    | kPosition3f =>
      have hmem : Attribute.kEND ∈ rest := by cases h with | tail _ h => exact h
      obtain ⟨sArr, hs⟩ :=
        ih (off + 3 * 4) (glEnableVertexAttribArray s kAttributePosition) hmem
      exact ⟨sArr, by simp [SetAttributesGo, hs, specBindWalk, specFieldDesc]⟩
    | kNormal3f =>
      have hmem : Attribute.kEND ∈ rest := by cases h with | tail _ h => exact h
      obtain ⟨sArr, hs⟩ :=
        ih (off + 3 * 4) (glEnableVertexAttribArray s kAttributeNormal) hmem
      exact ⟨sArr, by simp [SetAttributesGo, hs, specBindWalk, specFieldDesc]⟩
    | kTexCoord2f =>
      have hmem : Attribute.kEND ∈ rest := by cases h with | tail _ h => exact h
      obtain ⟨sArr, hs⟩ :=
        ih (off + 2 * 4) (glEnableVertexAttribArray s kAttributeTexCoord) hmem
      exact ⟨sArr, by simp [SetAttributesGo, hs, specBindWalk, specFieldDesc]⟩
    | kColor4ub =>
      have hmem : Attribute.kEND ∈ rest := by cases h with | tail _ h => exact h
      obtain ⟨sArr, hs⟩ :=
        ih (off + 4) (glEnableVertexAttribArray s kAttributeColor) hmem
      exact ⟨sArr, by simp [SetAttributesGo, hs, specBindWalk, specFieldDesc]⟩

lemma SetAttributesGo_isSome (stride : Nat) (attrs : List Attribute) :
    ∀ (off : Nat) (s : AttribArrays),
      (SetAttributesGo stride attrs off s).isSome ↔ Attribute.kEND ∈ attrs := by
  induction attrs with
  | nil => intro off s; simp [SetAttributesGo]
  | cons a rest ih =>
    intro off s
    cases a <;> simp [SetAttributesGo, ih, List.mem_cons]

lemma UnSetAttributesGo_enabled (attrs : List Attribute) :
    ∀ (t r : AttribArrays), UnSetAttributesGo attrs t = some r →
      ∀ k, r.enabled k = (t.enabled k && !(slotTouched k attrs)) := by
  induction attrs with
  | nil => intro t r h; simp [UnSetAttributesGo] at h
  | cons a rest ih =>
    intro t r h k
    cases a with
    | kEND =>
      simp only [UnSetAttributesGo] at h
      obtain rfl : t = r := Option.some.inj h
      simp [slotTouched_cons_end]
    | kPosition3f =>
      simp only [UnSetAttributesGo] at h
      rw [slotTouched_cons_field k Attribute.kPosition3f rest rfl, ih _ _ h k,
        disable_enabled t kAttributePosition k (by decide)]
      simp [fieldBindsSlot, Bool.and_assoc]
    | kNormal3f =>
      simp only [UnSetAttributesGo] at h
      rw [slotTouched_cons_field k Attribute.kNormal3f rest rfl, ih _ _ h k,
        disable_enabled t kAttributeNormal k (by decide)]
      simp [fieldBindsSlot, Bool.and_assoc]
    | kTexCoord2f =>
      simp only [UnSetAttributesGo] at h
      rw [slotTouched_cons_field k Attribute.kTexCoord2f rest rfl, ih _ _ h k,
        disable_enabled t kAttributeTexCoord k (by decide)]
      simp [fieldBindsSlot, Bool.and_assoc]
    | kColor4ub =>
      simp only [UnSetAttributesGo] at h
      rw [slotTouched_cons_field k Attribute.kColor4ub rest rfl, ih _ _ h k,
        disable_enabled t kAttributeColor k (by decide)]
      simp [fieldBindsSlot, Bool.and_assoc]

lemma UnSetAttributesGo_isSome (attrs : List Attribute) :
    ∀ (t : AttribArrays),
      (UnSetAttributesGo attrs t).isSome ↔ Attribute.kEND ∈ attrs := by
  induction attrs with
  | nil => intro t; simp [UnSetAttributesGo]
  | cons a rest ih =>
    intro t
    cases a <;> simp [UnSetAttributesGo, ih, List.mem_cons]

lemma SetAttributesGo_takeWhile (stride : Nat) (attrs : List Attribute) :
    ∀ (off : Nat) (s : AttribArrays), Attribute.kEND ∈ attrs →
      SetAttributesGo stride attrs off s =
        SetAttributesGo stride (attrs.takeWhile notEnd ++ [Attribute.kEND]) off s := by
  induction attrs with
  | nil => intro off s h; simp at h
  | cons a rest ih =>
    intro off s h
    cases a with
    | kEND => simp [SetAttributesGo, List.takeWhile_cons, notEnd]
    | kPosition3f =>
      have hmem : Attribute.kEND ∈ rest := by cases h with | tail _ h => exact h
      simp only [List.takeWhile_cons, notEnd, if_true, List.cons_append,
        SetAttributesGo]
      rw [ih _ _ hmem]; rfl
    | kNormal3f =>
      have hmem : Attribute.kEND ∈ rest := by cases h with | tail _ h => exact h
      simp only [List.takeWhile_cons, notEnd, if_true, List.cons_append,
        SetAttributesGo]
      rw [ih _ _ hmem]; rfl
    | kTexCoord2f =>
      have hmem : Attribute.kEND ∈ rest := by cases h with | tail _ h => exact h
      simp only [List.takeWhile_cons, notEnd, if_true, List.cons_append,
        SetAttributesGo]
      rw [ih _ _ hmem]; rfl
    | kColor4ub =>
      have hmem : Attribute.kEND ∈ rest := by cases h with | tail _ h => exact h
      simp only [List.takeWhile_cons, notEnd, if_true, List.cons_append,
        SetAttributesGo]
      rw [ih _ _ hmem]; rfl

lemma UnSetAttributesGo_takeWhile (attrs : List Attribute) :
    ∀ (t : AttribArrays), Attribute.kEND ∈ attrs →
      UnSetAttributesGo attrs t =
        UnSetAttributesGo (attrs.takeWhile notEnd ++ [Attribute.kEND]) t := by
  induction attrs with
  | nil => intro t h; simp at h
  | cons a rest ih =>
    intro t h
    cases a with
    | kEND => simp [UnSetAttributesGo, List.takeWhile_cons, notEnd]
    | kPosition3f =>
      have hmem : Attribute.kEND ∈ rest := by cases h with | tail _ h => exact h
      simp only [List.takeWhile_cons, notEnd, if_true, List.cons_append,
        UnSetAttributesGo]
      rw [ih _ hmem]; rfl
    | kNormal3f =>
      have hmem : Attribute.kEND ∈ rest := by cases h with | tail _ h => exact h
      simp only [List.takeWhile_cons, notEnd, if_true, List.cons_append,
        UnSetAttributesGo]
      rw [ih _ hmem]; rfl
    | kTexCoord2f =>
      have hmem : Attribute.kEND ∈ rest := by cases h with | tail _ h => exact h
      simp only [List.takeWhile_cons, notEnd, if_true, List.cons_append,
        UnSetAttributesGo]
      rw [ih _ hmem]; rfl
    | kColor4ub =>
      have hmem : Attribute.kEND ∈ rest := by cases h with | tail _ h => exact h
      simp only [List.takeWhile_cons, notEnd, if_true, List.cons_append,
        UnSetAttributesGo]
      rw [ih _ hmem]; rfl

/-! ## Claim theorems: attribute bind/unbind -/

/-- C1: for every `kEND`-terminated attribute format, `Mesh::SetAttributes`
walks the fields in declaration order from byte offset 0, enables each
field's fixed slot and registers its component count, type, normalization
flag and current offset, advancing the offset by the field's fixed size
(12 bytes for Position3f/Normal3f, 8 for TexCoord2f, 4 for Color4ub, the
only normalized field), and stops at the first `kEND`: the registrations
issued are exactly those of the spec's walk `specBindWalk`. -/
theorem C1_SetAttributes_walks_fields (vbo stride : Nat)
    (attrs : List Attribute) (s : AttribArrays)
    (hEnd : Attribute.kEND ∈ attrs) :
    ∃ sArr, SetAttributes vbo attrs stride s =
        some (sArr, specBindWalk stride attrs 0) ∧
      ∀ k, sArr.enabled k = (s.enabled k || slotTouched k attrs) := by
  obtain ⟨sArr, hs⟩ := SetAttributesGo_spec stride attrs 0 s hEnd
  exact ⟨sArr, hs,
    SetAttributesGo_enabled stride attrs 0 s (sArr, specBindWalk stride attrs 0) hs⟩

/-- Witness for C1 at a concrete position/texcoord/color format. -/
theorem C1_SetAttributes_walks_fields_witness :
    ∃ sArr, SetAttributes 1
        [Attribute.kPosition3f, Attribute.kTexCoord2f, Attribute.kColor4ub,
         Attribute.kEND] 24 glDefaultArrays =
        some (sArr, specBindWalk 24
          [Attribute.kPosition3f, Attribute.kTexCoord2f, Attribute.kColor4ub,
           Attribute.kEND] 0) ∧
      ∀ k, sArr.enabled k = (glDefaultArrays.enabled k ||
        slotTouched k
          [Attribute.kPosition3f, Attribute.kTexCoord2f, Attribute.kColor4ub,
           Attribute.kEND]) :=
  C1_SetAttributes_walks_fields 1 24
    [Attribute.kPosition3f, Attribute.kTexCoord2f, Attribute.kColor4ub,
     Attribute.kEND] glDefaultArrays (by decide)

/-- C2: binding any `kEND`-terminated format from the GL default state and
then immediately unbinding the same format leaves all four fixed attribute
slots disabled. -/
theorem C2_bind_then_unbind_disables_all (vbo stride : Nat)
    (attrs : List Attribute) (s' : AttribArrays)
    (ptrs : List VertexAttribPointer)
    (h : SetAttributes vbo attrs stride glDefaultArrays = some (s', ptrs)) :
    UnSetAttributes attrs s' = some glDefaultArrays := by
  have hgo : SetAttributesGo stride attrs 0 glDefaultArrays = some (s', ptrs) := h
  have hEnd : Attribute.kEND ∈ attrs :=
    (SetAttributesGo_isSome stride attrs 0 glDefaultArrays).mp (by rw [hgo]; rfl)
  obtain ⟨r, hr⟩ :=
    Option.isSome_iff_exists.mp ((UnSetAttributesGo_isSome attrs s').mpr hEnd)
  have hset := SetAttributesGo_enabled stride attrs 0 glDefaultArrays (s', ptrs) hgo
  have huns := UnSetAttributesGo_enabled attrs s' r hr
  have hk : ∀ k, r.enabled k = false := by
    intro k
    rw [huns k]
    have hs' : s'.enabled k = slotTouched k attrs := by
      simpa [glDefault_enabled] using hset k
    rw [hs']
    cases slotTouched k attrs <;> simp
  have hreq : r = glDefaultArrays := by
    cases r with
    | mk p n t c =>
      have h0 := hk 0
      have h1 := hk 1
      have h2 := hk 2
      have h3 := hk 3
      simp only [AttribArrays.enabled] at h0 h1 h2 h3
      simp [glDefaultArrays, h0, h1, h2, h3]
  rw [show UnSetAttributes attrs s' = UnSetAttributesGo attrs s' from rfl, hr,
    hreq]

/-- Witness for C2 at the concrete format of the C1 witness. -/
theorem C2_bind_then_unbind_disables_all_witness :
    UnSetAttributes
        [Attribute.kPosition3f, Attribute.kTexCoord2f, Attribute.kColor4ub,
         Attribute.kEND] ⟨true, false, true, true⟩ = some glDefaultArrays :=
  C2_bind_then_unbind_disables_all 1 24
    [Attribute.kPosition3f, Attribute.kTexCoord2f, Attribute.kColor4ub,
     Attribute.kEND] ⟨true, false, true, true⟩
    [⟨kAttributePosition, 3, .GL_FLOAT, false, 24, 0⟩,
     ⟨kAttributeTexCoord, 2, .GL_FLOAT, false, 24, 12⟩,
     ⟨kAttributeColor, 4, .GL_UNSIGNED_BYTE, true, 24, 20⟩] (by decide)

/-- C10: both attribute walks terminate exactly on sequences containing the
`kEND` sentinel (a sequence without `kEND` makes the loop run off the
sequence — the `none` case), and on a terminated sequence each walk
processes exactly the fields preceding the first `kEND`: it behaves as on
the `takeWhile`-prefix followed by `kEND`. -/
theorem C10_walks_terminate_iff_end (stride off : Nat)
    (attrs : List Attribute) (s t : AttribArrays) :
    ((SetAttributesGo stride attrs off s).isSome ↔ Attribute.kEND ∈ attrs) ∧
    ((UnSetAttributesGo attrs t).isSome ↔ Attribute.kEND ∈ attrs) ∧
    (Attribute.kEND ∈ attrs →
      SetAttributesGo stride attrs off s =
        SetAttributesGo stride (attrs.takeWhile notEnd ++ [Attribute.kEND]) off s ∧
      UnSetAttributesGo attrs t =
        UnSetAttributesGo (attrs.takeWhile notEnd ++ [Attribute.kEND]) t) :=
  ⟨SetAttributesGo_isSome stride attrs off s,
   UnSetAttributesGo_isSome attrs t,
   fun h => ⟨SetAttributesGo_takeWhile stride attrs off s h,
             UnSetAttributesGo_takeWhile attrs t h⟩⟩

/-- Witness for C10 on a format with fields after the first `kEND`. -/
theorem C10_walks_terminate_iff_end_witness :
    SetAttributesGo 12
        [Attribute.kNormal3f, Attribute.kEND, Attribute.kPosition3f] 0
        glDefaultArrays =
      SetAttributesGo 12
        ([Attribute.kNormal3f, Attribute.kEND,
          Attribute.kPosition3f].takeWhile notEnd ++ [Attribute.kEND]) 0
        glDefaultArrays ∧
    UnSetAttributesGo
        [Attribute.kNormal3f, Attribute.kEND, Attribute.kPosition3f]
        glDefaultArrays =
      UnSetAttributesGo
        ([Attribute.kNormal3f, Attribute.kEND,
          Attribute.kPosition3f].takeWhile notEnd ++ [Attribute.kEND])
        glDefaultArrays :=
  (C10_walks_terminate_iff_end 12 0
    [Attribute.kNormal3f, Attribute.kEND, Attribute.kPosition3f]
    glDefaultArrays glDefaultArrays).2.2 (by decide)

/-! ## Lemmas and claim theorem for the render trace (C3) -/

lemma flatMap_renderChunk_length (L : List Indices) :
    (L.flatMap renderChunk).length = 3 * L.length := by
  induction L with
  | nil => simp
  | cons a l ih =>
    simp [List.flatMap_cons, renderChunk, ih]
    ring

lemma flatMap_renderChunk_get (L : List Indices) :
    ∀ (n : Nat) (h : n < L.length),
      (L.flatMap renderChunk).get? (3 * n) =
          some (RenderOp.materialSet (L.get ⟨n, h⟩).mat) ∧
        (L.flatMap renderChunk).get? (3 * n + 1) =
          some (RenderOp.bindElementBuffer (L.get ⟨n, h⟩).ibo) ∧
        (L.flatMap renderChunk).get? (3 * n + 2) =
          some (RenderOp.drawElements GL_TRIANGLES (L.get ⟨n, h⟩).count) := by
  induction L with
  | nil => intro n h; exact absurd h (by simp)
  | cons a l ih =>
    intro n h
    cases n with
    | zero => simp [List.flatMap_cons, renderChunk]
    | succ m =>
      have hm : m < l.length := by simpa using h
      have hrec := ih m hm
      have h3 : 3 * (m + 1) = 3 * m + 3 := by ring
      simp only [List.flatMap_cons, renderChunk, h3, List.cons_append,
        List.get?_cons_succ, Nat.add_assoc]
      simpa using hrec

lemma flatMap_renderChunk_filter_draw (L : List Indices) :
    (L.flatMap renderChunk).filter RenderOp.isDraw =
      L.map (fun it => RenderOp.drawElements GL_TRIANGLES it.count) := by
  induction L with
  | nil => simp
  | cons a l ih =>
    simp [List.flatMap_cons, renderChunk, RenderOp.isDraw, ih]

lemma flatMap_renderChunk_filter_material (L : List Indices) :
    (L.flatMap renderChunk).filter RenderOp.isMaterial =
      L.map (fun it => RenderOp.materialSet it.mat) := by
  induction L with
  | nil => simp
  | cons a l ih =>
    simp [List.flatMap_cons, renderChunk, RenderOp.isMaterial, ih]

lemma flatMap_renderChunk_filter_bind (L : List Indices) :
    (L.flatMap renderChunk).filter RenderOp.isBindIbo =
      L.map (fun it => RenderOp.bindElementBuffer it.ibo) := by
  induction L with
  | nil => simp
  | cons a l ih =>
    simp [List.flatMap_cons, renderChunk, RenderOp.isBindIbo, ih]

lemma flatMap_renderChunk_filter_set (L : List Indices) :
    (L.flatMap renderChunk).filter RenderOp.isSetAttr = [] := by
  induction L with
  | nil => simp
  | cons a l ih =>
    simp [List.flatMap_cons, renderChunk, RenderOp.isSetAttr, ih]

lemma flatMap_renderChunk_filter_unset (L : List Indices) :
    (L.flatMap renderChunk).filter RenderOp.isUnSetAttr = [] := by
  induction L with
  | nil => simp
  | cons a l ih =>
    simp [List.flatMap_cons, renderChunk, RenderOp.isUnSetAttr, ih]

/-- C3: for a mesh with N index ranges, `Mesh::Render` issues exactly N
triangle-list draws, one per range in insertion order; the trace starts
with the single attribute bind, ends with the single attribute unbind, and
position `3n+3` (the n-th draw, with that range's count) is directly
preceded by that range's element-buffer bind at `3n+2` and its material
activation at `3n+1`. -/
theorem C3_Render_one_draw_per_range (m : Mesh) :
    (m.Render.filter RenderOp.isDraw).length = m.indices.length ∧
    m.Render.filter RenderOp.isDraw =
      m.indices.map (fun it => RenderOp.drawElements GL_TRIANGLES it.count) ∧
    m.Render.filter RenderOp.isMaterial =
      m.indices.map (fun it => RenderOp.materialSet it.mat) ∧
    m.Render.filter RenderOp.isBindIbo =
      m.indices.map (fun it => RenderOp.bindElementBuffer it.ibo) ∧
    m.Render.filter RenderOp.isSetAttr =
      [RenderOp.setAttributes m.vbo m.format m.vertex_size] ∧
    m.Render.filter RenderOp.isUnSetAttr =
      [RenderOp.unSetAttributes m.format] ∧
    m.Render.head? = some (RenderOp.setAttributes m.vbo m.format m.vertex_size) ∧
    m.Render.getLast? = some (RenderOp.unSetAttributes m.format) ∧
    m.Render.length = 3 * m.indices.length + 2 ∧
    ∀ (n : Nat) (h : n < m.indices.length),
      m.Render.get? (3 * n + 1) =
          some (RenderOp.materialSet (m.indices.get ⟨n, h⟩).mat) ∧
        m.Render.get? (3 * n + 2) =
          some (RenderOp.bindElementBuffer (m.indices.get ⟨n, h⟩).ibo) ∧
        m.Render.get? (3 * n + 3) =
          some (RenderOp.drawElements GL_TRIANGLES (m.indices.get ⟨n, h⟩).count) := by
  refine ⟨?_, ?_, ?_, ?_, ?_, ?_, ?_, ?_, ?_, ?_⟩
  · simp [Mesh.Render, RenderOp.isDraw, flatMap_renderChunk_filter_draw,
      List.filter_append]
  · simp [Mesh.Render, RenderOp.isDraw, flatMap_renderChunk_filter_draw,
      List.filter_append]
  · simp [Mesh.Render, RenderOp.isMaterial, flatMap_renderChunk_filter_material,
      List.filter_append]
  · simp [Mesh.Render, RenderOp.isBindIbo, flatMap_renderChunk_filter_bind,
      List.filter_append]
  · simp [Mesh.Render, RenderOp.isSetAttr, flatMap_renderChunk_filter_set,
      List.filter_append]
  · simp [Mesh.Render, RenderOp.isUnSetAttr, flatMap_renderChunk_filter_unset,
      List.filter_append]
  · simp [Mesh.Render]
  · simp only [Mesh.Render, ← List.cons_append]
    rw [List.getLast?_concat]
  · rw [Mesh.Render]
    simp only [List.length_cons, List.length_append,
      flatMap_renderChunk_length, List.length_singleton, List.length_nil]
  · intro n h
    obtain ⟨h1, h2, h3⟩ := flatMap_renderChunk_get m.indices n h
    have hlen : 3 * n + 2 < (m.indices.flatMap renderChunk).length := by
      rw [flatMap_renderChunk_length]
      omega
    refine ⟨?_, ?_, ?_⟩
    · rw [show (3 * n + 1) = (3 * n) + 1 from rfl]
      simp only [Mesh.Render, List.get?_cons_succ]
      rw [List.get?_append (by rw [flatMap_renderChunk_length]; omega), h1]
    · simp only [Mesh.Render, List.get?_cons_succ]
      rw [List.get?_append (by rw [flatMap_renderChunk_length]; omega), h2]
    · rw [show (3 * n + 3) = (3 * n + 2) + 1 from rfl]
      simp only [Mesh.Render, List.get?_cons_succ]
      rw [List.get?_append hlen, h3]

/-- Witness for C3 on a two-range mesh: the second range's material, index
buffer and draw occupy trace positions 4, 5 and 6. -/
theorem C3_Render_one_draw_per_range_witness :
    ({ vbo := 5, vertex_size := 24,
       format := [Attribute.kPosition3f, Attribute.kEND],
       indices := [⟨10, 6, 100⟩, ⟨11, 3, 101⟩] } : Mesh).Render.get? (3 * 1 + 1) =
        some (RenderOp.materialSet 101) ∧
      ({ vbo := 5, vertex_size := 24,
         format := [Attribute.kPosition3f, Attribute.kEND],
         indices := [⟨10, 6, 100⟩, ⟨11, 3, 101⟩] } : Mesh).Render.get? (3 * 1 + 2) =
        some (RenderOp.bindElementBuffer 11) ∧
      ({ vbo := 5, vertex_size := 24,
         format := [Attribute.kPosition3f, Attribute.kEND],
         indices := [⟨10, 6, 100⟩, ⟨11, 3, 101⟩] } : Mesh).Render.get? (3 * 1 + 3) =
        some (RenderOp.drawElements GL_TRIANGLES 3) :=
  (C3_Render_one_draw_per_range
    { vbo := 5, vertex_size := 24,
      format := [Attribute.kPosition3f, Attribute.kEND],
      indices := [⟨10, 6, 100⟩, ⟨11, 3, 101⟩] }).2.2.2.2.2.2.2.2.2 1 (by decide)

/-! ## Lemmas and claim theorem for the mesh lifecycle (C9) -/

lemma buildMesh_go (ranges : List (Nat × Nat)) :
    ∀ (m : Mesh) (n : Nat),
      (ranges.foldl (fun p r => p.1.AddIndices r.1 r.2 p.2) (m, n)).1.vbo =
          m.vbo ∧
        (ranges.foldl (fun p r => p.1.AddIndices r.1 r.2 p.2) (m, n)).1.indices.map
            (fun it => it.ibo) =
          m.indices.map (fun it => it.ibo) ++ List.range' n ranges.length := by
  induction ranges with
  | nil => intro m n; simp
  | cons r rs ih =>
    intro m n
    show (List.foldl (fun (p : Mesh × Nat) (r : Nat × Nat) =>
          p.1.AddIndices r.1 r.2 p.2)
        ({ m with indices := m.indices ++ [(⟨n, r.1, r.2⟩ : Indices)] }, n + 1)
        rs).1.vbo = m.vbo ∧
      (List.foldl (fun (p : Mesh × Nat) (r : Nat × Nat) =>
            p.1.AddIndices r.1 r.2 p.2)
          ({ m with indices := m.indices ++ [(⟨n, r.1, r.2⟩ : Indices)] }, n + 1)
          rs).1.indices.map (fun it => it.ibo) =
        m.indices.map (fun it => it.ibo) ++ List.range' n (r :: rs).length
    obtain ⟨h1, h2⟩ := ih { m with indices := m.indices ++ [⟨n, r.1, r.2⟩] } (n + 1)
    refine ⟨h1, ?_⟩
    rw [h2]
    simp only [List.map_append, List.map_cons, List.map_nil, List.length_cons,
      List.range'_succ, List.append_assoc, List.cons_append, List.nil_append]

lemma buildMesh_dtorDeletes (vsize : Nat) (fmt : List Attribute)
    (ranges : List (Nat × Nat)) (n : Nat) :
    (buildMesh vsize fmt ranges n).1.dtorDeletes =
      n :: List.range' (n + 1) ranges.length ∧
    (buildMesh vsize fmt ranges n).1.vbo = n := by
  obtain ⟨h1, h2⟩ := buildMesh_go ranges (mkMesh vsize fmt n).1 (n + 1)
  constructor
  · rw [Mesh.dtorDeletes]
    rw [show (buildMesh vsize fmt ranges n).1.indices.map (fun it => it.ibo) =
        List.range' (n + 1) ranges.length from by
      have := h2
      simpa [mkMesh] using this]
    rw [show (buildMesh vsize fmt ranges n).1.vbo = n from by
      simpa [mkMesh] using h1]
  · simpa [mkMesh] using h1

/-- C9: a mesh built by the constructor and any sequence of `AddIndices`
calls hands each of its buffers to `glDeleteBuffers` exactly once on
destruction — the vertex buffer and every index buffer appear once each in
the delete list, with no duplicates, and with zero ranges only the vertex
buffer is deleted. -/
theorem C9_dtor_deletes_each_buffer_once (vsize : Nat) (fmt : List Attribute)
    (ranges : List (Nat × Nat)) (n : Nat) :
    (buildMesh vsize fmt ranges n).1.dtorDeletes.Nodup ∧
    (buildMesh vsize fmt ranges n).1.dtorDeletes.count
        (buildMesh vsize fmt ranges n).1.vbo = 1 ∧
    (∀ it ∈ (buildMesh vsize fmt ranges n).1.indices,
      (buildMesh vsize fmt ranges n).1.dtorDeletes.count it.ibo = 1) ∧
    (ranges = [] →
      (buildMesh vsize fmt ranges n).1.dtorDeletes =
        [(buildMesh vsize fmt ranges n).1.vbo]) := by
  obtain ⟨hd, hv⟩ := buildMesh_dtorDeletes vsize fmt ranges n
  have hnotmem : n ∉ List.range' (n + 1) ranges.length := by
    intro hmem
    have := List.mem_range'_1.mp hmem
    omega
  have hnodup : (buildMesh vsize fmt ranges n).1.dtorDeletes.Nodup := by
    rw [hd]
    exact List.Nodup.cons hnotmem (List.nodup_range' (n + 1) ranges.length)
  refine ⟨hnodup, ?_, ?_, ?_⟩
  · rw [hd, hv, List.count_cons_self,
      List.count_eq_zero_of_not_mem hnotmem]
  · intro it hit
    have hmem : it.ibo ∈ (buildMesh vsize fmt ranges n).1.dtorDeletes :=
      List.mem_cons_of_mem _ (List.mem_map_of_mem (fun i => i.ibo) hit)
    exact List.count_eq_one_of_mem hnodup hmem
  · intro hr
    subst hr
    rw [hd, hv]
    rfl

/-- Witness for C9: with two ranges added after construction at counter 7,
the first index buffer (name 8) is deleted exactly once, and with zero
ranges only the vertex buffer is deleted. -/
theorem C9_dtor_deletes_each_buffer_once_witness :
    (buildMesh 24 [Attribute.kEND] [(6, 100), (3, 101)] 7).1.dtorDeletes.count
        8 = 1 ∧
    (buildMesh 24 [Attribute.kEND] ([] : List (Nat × Nat)) 7).1.dtorDeletes =
      [(buildMesh 24 [Attribute.kEND] ([] : List (Nat × Nat)) 7).1.vbo] := by
  constructor
  · exact (C9_dtor_deletes_each_buffer_once 24 [Attribute.kEND]
      [(6, 100), (3, 101)] 7).2.2.1 ⟨8, 6, 100⟩ (by decide)
  · exact (C9_dtor_deletes_each_buffer_once 24 [Attribute.kEND]
      ([] : List (Nat × Nat)) 7).2.2.2 rfl

/-! ## Claim theorems: shader compilation error paths (C4, C5) -/

/-- C4: whenever the vertex stage fails to compile — and likewise for a
fragment-stage compile failure and for a link failure — under a driver that
attaches a non-empty diagnostic to every failure, `CompileAndLinkShader`
returns `none` (not an exception), deletes every GPU handle it created for
the attempt (the live shader and program sets return to their initial
values), and leaves the shared `last_error_` string non-empty. -/
theorem C4_CompileAndLinkShader_failure_cleanup (d : GLDriver) (st : GLState)
    (vs_source ps_source : String)
    (hclog : ∀ stg s, d.compileLog stg s ≠ "")
    (hllog : ∀ a b, d.linkLog a b ≠ "") :
    (d.compileOk .GL_VERTEX_SHADER (platformSource vs_source) = false →
      (CompileAndLinkShader d vs_source ps_source st).1 = none ∧
      (CompileAndLinkShader d vs_source ps_source st).2.liveShaders =
        st.liveShaders ∧
      (CompileAndLinkShader d vs_source ps_source st).2.livePrograms =
        st.livePrograms ∧
      (CompileAndLinkShader d vs_source ps_source st).2.lastError ≠ "") ∧
    (d.compileOk .GL_VERTEX_SHADER (platformSource vs_source) = true →
      d.compileOk .GL_FRAGMENT_SHADER (platformSource ps_source) = false →
      (CompileAndLinkShader d vs_source ps_source st).1 = none ∧
      (CompileAndLinkShader d vs_source ps_source st).2.liveShaders =
        st.liveShaders ∧
      (CompileAndLinkShader d vs_source ps_source st).2.livePrograms =
        st.livePrograms ∧
      (CompileAndLinkShader d vs_source ps_source st).2.lastError ≠ "") ∧
    (d.compileOk .GL_VERTEX_SHADER (platformSource vs_source) = true →
      d.compileOk .GL_FRAGMENT_SHADER (platformSource ps_source) = true →
      d.linkOk (platformSource vs_source) (platformSource ps_source) = false →
      (CompileAndLinkShader d vs_source ps_source st).1 = none ∧
      (CompileAndLinkShader d vs_source ps_source st).2.liveShaders =
        st.liveShaders ∧
      (CompileAndLinkShader d vs_source ps_source st).2.livePrograms =
        st.livePrograms ∧
      (CompileAndLinkShader d vs_source ps_source st).2.lastError ≠ "") := by
  refine ⟨?_, ?_, ?_⟩
  · intro hvs
    simp [CompileAndLinkShader, CompileShader, hvs, glDeleteProgram,
      glDeleteShader, List.erase_cons_head, hclog]
  · intro hvs hps
    simp [CompileAndLinkShader, CompileShader, hvs, hps, glDeleteProgram,
      glDeleteShader, List.erase_cons_head, hclog]
  · intro hvs hps hlink
    simp [CompileAndLinkShader, CompileShader, hvs, hps, hlink,
      glDeleteProgram, glDeleteShader, List.erase_cons_head, hllog]

/-- Witness for C4: the all-fail driver on a fresh context (vertex-stage
failure branch). -/
theorem C4_CompileAndLinkShader_failure_cleanup_witness :
    (CompileAndLinkShader failDriver "vs" "ps" emptyGLState).1 = none ∧
    (CompileAndLinkShader failDriver "vs" "ps" emptyGLState).2.liveShaders =
      emptyGLState.liveShaders ∧
    (CompileAndLinkShader failDriver "vs" "ps" emptyGLState).2.livePrograms =
      emptyGLState.livePrograms ∧
    (CompileAndLinkShader failDriver "vs" "ps" emptyGLState).2.lastError ≠ "" :=
  (C4_CompileAndLinkShader_failure_cleanup failDriver emptyGLState "vs" "ps"
    (fun _ _ => by simp [failDriver])
    (fun _ _ => by simp [failDriver])).1 rfl

/-- C5 as amended: on a compile failure `Renderer::CompileShader` stores the
compiler diagnostic in the shared `last_error_`, returns the null handle,
and leaves the failed stage un-attached to the program — but it deletes the
failed stage itself (`glDeleteShader(shader_obj)` in the failure branch), so
no live handle is left for the caller to delete. -/
theorem C5_CompileShader_failure_deletes_stage (d : GLDriver)
    (stage : ShaderStage) (program : Nat) (source : String) (st : GLState)
    (h : d.compileOk stage (platformSource source) = false) :
    (CompileShader d stage program source st).1 = none ∧
    (CompileShader d stage program source st).2.lastError =
      d.compileLog stage (platformSource source) ∧
    (CompileShader d stage program source st).2.attached = st.attached ∧
    (CompileShader d stage program source st).2.liveShaders =
      st.liveShaders := by
  simp [CompileShader, h, List.erase_cons_head]

/-- Witness for C5's amended theorem on the all-fail driver. -/
theorem C5_CompileShader_failure_deletes_stage_witness :
    (CompileShader failDriver .GL_VERTEX_SHADER 7 "src" emptyGLState).1 =
      none ∧
    (CompileShader failDriver .GL_VERTEX_SHADER 7 "src" emptyGLState).2.lastError =
      failDriver.compileLog .GL_VERTEX_SHADER (platformSource "src") ∧
    (CompileShader failDriver .GL_VERTEX_SHADER 7 "src" emptyGLState).2.attached =
      emptyGLState.attached ∧
    (CompileShader failDriver .GL_VERTEX_SHADER 7 "src" emptyGLState).2.liveShaders =
      emptyGLState.liveShaders :=
  C5_CompileShader_failure_deletes_stage failDriver .GL_VERTEX_SHADER 7 "src"
    emptyGLState rfl

/-- Counterexample to C5 as stated: the claim says the failed stage is left
alive for the caller to delete, but after a failed `CompileShader` on a
fresh context the set of live shader objects is empty — the function
deleted the stage itself (renderer.cpp line 166). -/
theorem C5_CompileShader_failure_stage_not_alive :
    (CompileShader failDriver .GL_VERTEX_SHADER 7 "src" emptyGLState).1 =
      none ∧
    (CompileShader failDriver .GL_VERTEX_SHADER 7 "src"
      emptyGLState).2.liveShaders = [] :=
  ⟨rfl, rfl⟩

/-! ## Claim theorems: TGA decoding (C6, C7, C8) -/

/-- C6: the decoder on a 2×2, 32-bit, non-flipped buffer with header
`{width=2, height=2, bpp=32, image_type=2, color_map_type=0, id_len=0}` and
four known BGRA pixels produces exactly 16 RGBA bytes in row-major
top-to-bottom order with the R and B byte of each pixel swapped and the
alpha byte unchanged; on the 24-bit variant the alpha byte is synthesized
as 255. -/
theorem C6_decode_2x2_rgba :
    CreateTextureFromTGAMemory true
        ([0, 0, 2, 0, 0, 0, 0, 0, 0, 0, 0, 0, 2, 0, 2, 0, 32, 0] ++
         [1, 2, 3, 4, 5, 6, 7, 8, 9, 10, 11, 12, 13, 14, 15, 16]) =
      some (2, 2,
        [3, 2, 1, 4, 7, 6, 5, 8, 11, 10, 9, 12, 15, 14, 13, 16]) ∧
    CreateTextureFromTGAMemory true
        ([0, 0, 2, 0, 0, 0, 0, 0, 0, 0, 0, 0, 2, 0, 2, 0, 24, 0] ++
         [1, 2, 3, 5, 6, 7, 9, 10, 11, 13, 14, 15]) =
      some (2, 2,
        [3, 2, 1, 255, 7, 6, 5, 255, 11, 10, 9, 255, 15, 14, 13, 255]) := by
  constructor
  · rfl
  · rfl

/-- C7: setting the vertical-flip bit (0x20 in `image_descriptor`) and
swapping rows 0 and 1 of the input pixel data yields byte-for-byte the same
decoder output as the original non-flipped buffer of C6. -/
theorem C7_flip_bit_roundtrip :
    CreateTextureFromTGAMemory true
        ([0, 0, 2, 0, 0, 0, 0, 0, 0, 0, 0, 0, 2, 0, 2, 0, 32, 32] ++
         [9, 10, 11, 12, 13, 14, 15, 16, 1, 2, 3, 4, 5, 6, 7, 8]) =
      CreateTextureFromTGAMemory true
        ([0, 0, 2, 0, 0, 0, 0, 0, 0, 0, 0, 0, 2, 0, 2, 0, 32, 0] ++
         [1, 2, 3, 4, 5, 6, 7, 8, 9, 10, 11, 12, 13, 14, 15, 16]) := by
  rfl

/-- C8: the decoder returns the failure result on any big-endian host, and
on any buffer whose header has `color_map_type ≠ 0`, `image_type ≠ 2` or
`bpp ∉ {24, 32}`; in both cases it performs no pixel conversion (the
failure result carries no pixels and no texture is created). -/
theorem C8_decode_rejects_unsupported (buf : List Nat) :
    CreateTextureFromTGAMemory false buf = none ∧
    (buf.getD 1 0 ≠ 0 ∨ buf.getD 2 0 ≠ 2 ∨
        (buf.getD 16 0 ≠ 32 ∧ buf.getD 16 0 ≠ 24) →
      CreateTextureFromTGAMemory true buf = none) := by
  constructor
  · rfl
  · intro h
    simp only [CreateTextureFromTGAMemory, Bool.not_true, Bool.false_eq_true,
      if_false]
    rw [if_pos h]

/-- Witness for C8 on a buffer with `color_map_type = 1`. -/
theorem C8_decode_rejects_unsupported_witness :
    CreateTextureFromTGAMemory true
        [0, 1, 2, 0, 0, 0, 0, 0, 0, 0, 0, 0, 1, 0, 1, 0, 32, 0] = none :=
  (C8_decode_rejects_unsupported
    [0, 1, 2, 0, 0, 0, 0, 0, 0, 0, 0, 0, 1, 0, 1, 0, 32, 0]).2
    (Or.inl (by decide))

end Fpl
